import Mathlib

/-!
Shallow embedding of the question-generation workflow of
`src/src/workflow/test_generation_workflow.py` (class `TestGenerationWorkflow`):
the response parser `extract_json`, the validator `_validate_question_data`,
the graph nodes `generate_single_question` and `validate_and_add_question`,
the continuation predicate `should_continue`, and the run loop `generate_test`.

Machine strings are modeled as Lean `String` (all inputs considered are ASCII).
Python `json.loads` is modeled by `json_loads` below: a strict JSON reader for
the fragment actually exercised by this repository (objects, arrays, strings
with the simple escapes, integer numerals, `true`/`false`/`null`); numerals
with a fraction or exponent and `\u` escapes are outside the modeled fragment.
-/

set_option maxRecDepth 100000
set_option maxHeartbeats 1000000

namespace QuizWorkflow

/-- JSON values as produced by the Python `json` module: `null`, booleans,
integer numerals, strings, arrays, and objects kept as ordered key-value
lists (Python dicts preserve insertion order; lookups take the last
occurrence of a key, as a dict built from duplicate keys would). -/
inductive Json where
  | null
  | bool (b : Bool)
  | num (n : Int)
  | str (s : String)
  | arr (elems : List Json)
  | obj (members : List (String × Json))
deriving Repr

/-- Whitespace accepted between JSON tokens by `json.loads` (space, tab,
newline, carriage return). -/
def jsonWs (c : Char) : Bool :=
  c = ' ' || c = '\t' || c = '\n' || c = '\r'

/-- Whitespace of the Python regex class backslash-s and of `str.strip()`
restricted to ASCII: space, tab, newline, carriage return, vertical tab,
form feed. -/
def pyWs (c : Char) : Bool :=
  c = ' ' || c = '\t' || c = '\n' || c = '\r' || c = '\x0b' || c = '\x0c'

/-- Python `str.strip()` on ASCII text: drop leading and trailing whitespace. -/
def pyStrip (s : String) : String :=
  String.mk (((s.toList.dropWhile pyWs).reverse.dropWhile pyWs).reverse)

/-- Python `str.strip(",")`: drop all leading and trailing commas. -/
def stripCommas (s : String) : String :=
  String.mk (((s.toList.dropWhile (· = ',')).reverse.dropWhile (· = ',')).reverse)

/-- Python `str.rstrip(",")`: drop all trailing commas. -/
def rstripCommas (s : String) : String :=
  String.mk ((s.toList.reverse.dropWhile (· = ',')).reverse)

/-- Python `str.lower()` on ASCII text. -/
def pyLower (s : String) : String :=
  String.mk (s.toList.map fun c =>
    if 65 ≤ c.toNat && c.toNat ≤ 90 then Char.ofNat (c.toNat + 32) else c)

/-- Python `str.startswith`. -/
def pyStartsWith (s pre : String) : Bool :=
  pre.toList.isPrefixOf s.toList

/-- Python `str.endswith`. -/
def pyEndsWith (s suf : String) : Bool :=
  suf.toList.isSuffixOf s.toList

/-- Substring containment over character lists (Python `needle in hay`). -/
def listContainsSub (hay needle : List Char) : Bool :=
  match hay with
  | [] => needle.isEmpty
  | _ :: t => needle.isPrefixOf hay || listContainsSub t needle

/-- Python substring test `needle in hay`. -/
def pyContains (hay needle : String) : Bool :=
  listContainsSub hay.toList needle.toList

/-- Python slice `s[:200]`. -/
def pyTake200 (s : String) : String :=
  String.mk (s.toList.take 200)

/-- Numeric value of a digit run. -/
def natOfDigits (ds : List Char) : Nat :=
  ds.foldl (fun acc c => acc * 10 + (c.toNat - 48)) 0

/-- Split a leading run of ASCII digits. -/
def takeDigits (cs : List Char) : List Char × List Char :=
  (cs.takeWhile Char.isDigit, cs.dropWhile Char.isDigit)

/-- Strict JSON numeral reader (integer numerals only; a fraction or exponent
is outside the modeled fragment and is rejected). -/
def parseNum (cs : List Char) : Option (Json × List Char) :=
  let signed := match cs with
    | '-' :: r => some (true, r)
    | _ => some (false, cs)
  match signed with
  | some (neg, cs1) =>
    match takeDigits cs1 with
    | ([], _) => none
    | (ds, rest) =>
      if ds.length > 1 && ds.head? = some '0' then none
      else
        match rest with
        | '.' :: _ => none
        | 'e' :: _ => none
        | 'E' :: _ => none
        | _ =>
          let v : Int := Int.ofNat (natOfDigits ds)
          some (.num (if neg then -v else v), rest)
  | none => none

/-- Strict JSON string body reader, applied after the opening quote has been
consumed. Returns the decoded content and the remaining input. Simple
escapes only; unescaped control characters are rejected as `json.loads`
(strict mode) does. -/
def parseJStr : List Char → Option (List Char × List Char)
  | [] => none
  | '"' :: cs => some ([], cs)
  | '\\' :: e :: cs =>
    (match e with
      | '"' => some '"'
      | '\\' => some '\\'
      | '/' => some '/'
      | 'b' => some (Char.ofNat 8)
      | 'f' => some (Char.ofNat 12)
      | 'n' => some '\n'
      | 'r' => some '\r'
      | 't' => some '\t'
      | _ => none).bind fun c =>
        (parseJStr cs).map fun (p : List Char × List Char) => (c :: p.1, p.2)
  | c :: cs =>
    if c.toNat < 32 then none
    else (parseJStr cs).map fun (p : List Char × List Char) => (c :: p.1, p.2)

mutual

/-- Strict JSON value reader with explicit fuel. -/
def parseValue : Nat → List Char → Option (Json × List Char)
  | 0, _ => none
  | fuel + 1, cs =>
    match cs.dropWhile jsonWs with
    | [] => none
    | '"' :: rest =>
      (parseJStr rest).map fun (p : List Char × List Char) =>
        (.str (String.mk p.1), p.2)
    | '{' :: rest => parseObjBody fuel (rest.dropWhile jsonWs)
    | '[' :: rest => parseArrBody fuel (rest.dropWhile jsonWs)
    | 't' :: 'r' :: 'u' :: 'e' :: r => some (.bool true, r)
    | 'f' :: 'a' :: 'l' :: 's' :: 'e' :: r => some (.bool false, r)
    | 'n' :: 'u' :: 'l' :: 'l' :: r => some (.null, r)
    | rest => parseNum rest

/-- Object body reader, applied after the opening brace (whitespace already
skipped). -/
def parseObjBody : Nat → List Char → Option (Json × List Char)
  | 0, _ => none
  | fuel + 1, cs =>
    match cs with
    | '}' :: r => some (.obj [], r)
    | _ => parseMembers fuel cs []

/-- Comma-separated `"key": value` member list of an object. -/
def parseMembers : Nat → List Char → List (String × Json) →
    Option (Json × List Char)
  | 0, _, _ => none
  | fuel + 1, cs, acc =>
    match cs with
    | '"' :: rest =>
      match parseJStr rest with
      | none => none
      | some (k, r1) =>
        match r1.dropWhile jsonWs with
        | ':' :: r2 =>
          match parseValue fuel r2 with
          | none => none
          | some (v, r3) =>
            match r3.dropWhile jsonWs with
            | ',' :: r4 =>
              parseMembers fuel (r4.dropWhile jsonWs)
                (acc ++ [(String.mk k, v)])
            | '}' :: r4 => some (.obj (acc ++ [(String.mk k, v)]), r4)
            | _ => none
        | _ => none
    | _ => none

/-- Array body reader, applied after the opening bracket (whitespace already
skipped). -/
def parseArrBody : Nat → List Char → Option (Json × List Char)
  | 0, _ => none
  | fuel + 1, cs =>
    match cs with
    | ']' :: r => some (.arr [], r)
    | _ => parseElems fuel cs []

/-- Comma-separated element list of an array. -/
def parseElems : Nat → List Char → List Json → Option (Json × List Char)
  | 0, _, _ => none
  | fuel + 1, cs, acc =>
    match parseValue fuel cs with
    | none => none
    | some (v, r1) =>
      match r1.dropWhile jsonWs with
      | ',' :: r2 => parseElems fuel r2 (acc ++ [v])
      | ']' :: r2 => some (.arr (acc ++ [v]), r2)
      | _ => none

end

/-- Model of Python `json.loads`: read one JSON value and require only
whitespace to remain. The fuel is ample for any input of the given length. -/
def json_loads (s : String) : Option Json :=
  match parseValue (2 * s.length + 8) s.toList with
  | some (v, rest) => if rest.dropWhile jsonWs = [] then some v else none
  | none => none

/-- Code-fence stripping of `extract_json` (lines 115-116 of the source):
remove a leading triple backtick with an optional language tag, strip,
remove a trailing triple backtick, strip. -/
def stripFences (t : String) : String :=
  let backticks := String.mk ['\x60', '\x60', '\x60']
  let t1 := if pyStartsWith t backticks then
      String.mk ((t.toList.drop 3).dropWhile Char.isAlpha)
    else t
  let t2 := pyStrip t1
  let t3 := if pyEndsWith t2 backticks then
      String.mk (t2.toList.take (t2.toList.length - 3))
    else t2
  pyStrip t3

/-- The tier-2 regex of `extract_json`: search for a substring beginning at
the first opening brace and ending at the last closing brace (the regex
`backslash-brace dot-star backslash-brace` with DOTALL, greedy). -/
def braceMatch (t : String) : Option String :=
  let cs := t.toList
  match cs.findIdx? (· = '{') with
  | none => none
  | some i =>
    match cs.reverse.findIdx? (· = '}') with
    | none => none
    | some rj =>
      let j := cs.length - 1 - rj
      if i < j then some (String.mk ((cs.drop i).take (j - i + 1))) else none

/-- Value continuation of the tier-4 field regex: after the closing quote of
the field name, require optional whitespace then a colon, then capture
(after optional whitespace, which the greedy quantifier consumes across
newlines) the rest of the line. -/
def fieldValueAt (cs : List Char) : Option (List Char) :=
  match cs.dropWhile pyWs with
  | ':' :: r2 => some ((r2.dropWhile pyWs).takeWhile (· ≠ '\n'))
  | _ => none

/-- Scan for the first occurrence of the quoted field name whose continuation
matches the tier-4 regex; on a failed continuation the search resumes one
character later, as the regex engine does. -/
def searchField (needle : List Char) : List Char → Option (List Char)
  | [] => none
  | c :: t =>
    if needle.isPrefixOf (c :: t) then
      match fieldValueAt ((c :: t).drop needle.length) with
      | some v => some v
      | none => searchField needle t
    else searchField needle t

/-- Tier-4 per-field extraction: captured value, stripped, with trailing
commas removed (`group(1).strip().rstrip(",")`). -/
def extractField (field : String) (t : String) : Option String :=
  (searchField (('"' :: field.toList) ++ ['"']) t.toList).map fun v =>
    rstripCommas (pyStrip (String.mk v))

/-- Surrounding-quote removal applied to non-options tier-4 values. -/
def stripQuotes (v : String) : String :=
  if pyStartsWith v "\"" && pyEndsWith v "\"" then
    String.mk ((v.toList.drop 1).take (v.toList.length - 2))
  else v

/-- The placeholder options fabricated when the tier-4 nested decode of the
options value fails: four empty strings under keys a, b, c, d. -/
def emptyOptions : Json :=
  .obj [("a", .str ""), ("b", .str ""), ("c", .str ""), ("d", .str "")]

/-- One tier-4 field as stored in the result dict: the options value is
decoded as nested JSON (defaulting to `emptyOptions` on failure), other
values have surrounding quotes removed. -/
def fieldEntry (field : String) (t : String) : Option Json :=
  (extractField field t).map fun v =>
    if field = "options" then
      match json_loads v with
      | some j => j
      | none => emptyOptions
    else Json.str (stripQuotes v)

/-- The tier-4 line-by-line fallback: succeeds only when all four required
fields are recovered, in which case the result dict holds them in field
order. -/
def lineFallback (t : String) : Option (List (String × Json)) :=
  match fieldEntry "question" t, fieldEntry "options" t,
      fieldEntry "correct_answer" t, fieldEntry "explanation" t with
  | some q, some o, some c, some e =>
    some [("question", q), ("options", o), ("correct_answer", c),
      ("explanation", e)]
  | _, _, _, _ => none

/-- Failure modes of `extract_json`: a `JSONDecodeError` escaping from an
unguarded `json.loads` call (tier 2, or the re-raise of tier 3), or the
final `ValueError` raised with a truncated excerpt of the text. -/
inductive ExtractErr where
  | jsonDecode
  | valueErr (msg : String)
deriving Repr

/-- Stands in for the message text of the JSONDecodeError raised inside
`json.loads` (produced by the Python runtime, not by this repository). -/
def jsonDecodeMsg : String := "Expecting value"

/-- The parser `extract_json` (source lines 111-171). Tier 1 strips code
fences; tier 2 decodes the first-brace-to-last-brace substring, raising
the decode error on failure (the call is not guarded); tier 3 wraps a
brace-less text containing the quoted token question in braces, re-raising
the decode error on failure; tier 4 recovers the four fields line by line;
tier 5 decodes the whole text, raising a ValueError carrying the first 200
characters of the text when it fails. -/
def extract_json (text0 : String) : Except ExtractErr Json :=
  let text := stripFences text0
  match braceMatch text with
  | some jstr =>
    match json_loads jstr with
    | some v => .ok v
    | none => .error .jsonDecode
  | none =>
    if pyContains text "\"question\"" && !pyStartsWith (pyStrip text) "\x7b"
    then
      match json_loads ("\x7b" ++ stripCommas (pyStrip text) ++ "\x7d") with
      | some v => .ok v
      | none => .error .jsonDecode
    else
      match lineFallback text with
      | some kvs => .ok (.obj kvs)
      | none =>
        match json_loads text with
        | some v => .ok v
        | none =>
          .error (.valueErr
            ("Failed to parse LLM response after all attempts. Raw response: "
              ++ pyTake200 text ++ "..."))

/-- Python dict lookup on an ordered key-value list (last occurrence wins,
matching a dict built by repeated insertion). -/
def pyGet (kvs : List (String × Json)) (k : String) : Option Json :=
  (kvs.reverse.find? fun p => p.1 == k).map fun p => p.2

/-- Key-set comparison of the options mapping with the set a, b, c, d
(`set(data["options"].keys()) == {"a","b","c","d"}`). -/
def keySetABCD (kvs : List (String × Json)) : Bool :=
  (["a", "b", "c", "d"].all fun k => kvs.any fun p => p.1 == k) &&
    (kvs.all fun p => p.1 == "a" || p.1 == "b" || p.1 == "c" || p.1 == "d")

/-- Rule: all four required fields present (source line 218). -/
def fieldsPresent (data : List (String × Json)) : Bool :=
  ["question", "options", "correct_answer", "explanation"].all fun f =>
    (pyGet data f).isSome

/-- Rule: question truthy and, after stripping, ends with a question mark
(source line 222). A falsy or non-string value fails; for a truthy
non-string Python would raise AttributeError, which the caller turns into
the same no-candidate outcome. -/
def questionOk : Option Json → Bool
  | some (.str q) => pyEndsWith (pyStrip q) "?"
  | _ => false

/-- Rule: options is a dict whose key set is exactly a, b, c, d (source
line 226). -/
def optionsOk : Option Json → Bool
  | some (.obj kvs) => keySetABCD kvs
  | _ => false

/-- Rule: correct_answer is one of a, b, c, d (source line 235); a
non-string value is never a member of that list. -/
def answerOk : Option Json → Bool
  | some (.str c) => c == "a" || c == "b" || c == "c" || c == "d"
  | _ => false

/-- Rule: explanation truthy and at least 10 characters after stripping
(source line 239). -/
def explanationOk : Option Json → Bool
  | some (.str e) => decide (10 ≤ (pyStrip e).length)
  | _ => false

/-- Rule: an optional difficulty field must be Easy, Medium or Hard (source
line 243). -/
def difficultyOk : Option Json → Bool
  | none => true
  | some (.str d) => d == "Easy" || d == "Medium" || d == "Hard"
  | some _ => false

/-- The validator `_validate_question_data` (source lines 213-250): the
sequence of early-return checks, equivalently a short-circuit conjunction
in the same order. -/
def _validate_question_data (data : List (String × Json)) : Bool :=
  fieldsPresent data &&
    questionOk (pyGet data "question") &&
    optionsOk (pyGet data "options") &&
    answerOk (pyGet data "correct_answer") &&
    explanationOk (pyGet data "explanation") &&
    difficultyOk (pyGet data "difficulty")

/-- One accepted question as assembled at source lines 179-186: the
question text, the options dict copied verbatim, and the nested answer
dict flattened to its answer key and explanation text. -/
structure Question where
  question : String
  options : List (String × Json)
  answer_key : String
  explanation : String
deriving Repr

/-- The workflow state threaded through the graph nodes (`WorkflowState`
of the source). -/
structure WorkflowState where
  technology : String
  difficulty : String
  questions : List Question
  errors : List String
  num_questions : Nat
  current_question : Option Question
deriving Repr

/-- String content of an already-validated field (the validator guarantees
the three text fields are strings and options is a dict, so the default
branches are never reached on validated data). -/
def asStr : Json → String
  | .str s => s
  | _ => ""

/-- Member list of an already-validated options value. -/
def asObj : Json → List (String × Json)
  | .obj kvs => kvs
  | _ => []

/-- Outcome of the generate step for one LLM response, which depends only on
the response: either the formatted candidate question, or the error text
appended to the error list. Mirrors source lines 174-211: client failure
is reported as an error-generating message; a JSONDecodeError and the
final ValueError of `extract_json` are caught by their two handlers; a
candidate failing validation (or a non-dict decode result, on which the
field checks fail) yields the invalid-format message. -/
def genResult (resp : Except String String) : Except String Question :=
  match resp with
  | .error e => .error ("Error generating question: " ++ e)
  | .ok raw =>
    let text := pyStrip raw
    match extract_json text with
    | .ok (.obj d) =>
      if _validate_question_data d then
        .ok { question := asStr ((pyGet d "question").getD .null),
              options := asObj ((pyGet d "options").getD .null),
              answer_key := asStr ((pyGet d "correct_answer").getD .null),
              explanation := asStr ((pyGet d "explanation").getD .null) }
      else .error "Invalid question format received from LLM"
    | .ok _ => .error "Invalid question format received from LLM"
    | .error .jsonDecode =>
      .error ("Failed to parse LLM response as JSON: " ++ jsonDecodeMsg
        ++ ". Raw response: " ++ text)
    | .error (.valueErr m) =>
      .error ("Unexpected error during JSON extraction: " ++ m
        ++ ". Raw response: " ++ text)

/-- The generate node (source lines 80-211): on success store the candidate
and reset the error list to empty (lines 187-188); on any failure append
one error description and clear the candidate. -/
def generate_single_question (resp : Except String String)
    (s : WorkflowState) : WorkflowState :=
  match genResult resp with
  | .ok q => { s with current_question := some q, errors := [] }
  | .error m =>
    { s with errors := s.errors ++ [m], current_question := none }

/-- The validate node (source lines 252-276): accept the pending candidate
unless its question text is a case-insensitive duplicate of an accepted
one; with no pending candidate append the fixed no-valid-question error. -/
def validate_and_add_question (s : WorkflowState) : WorkflowState :=
  match s.current_question with
  | some cand =>
    if s.questions.any (fun q => pyLower q.question == pyLower cand.question)
    then
      { s with errors := s.errors ++ ["Duplicate question detected"],
               current_question := none }
    else
      { s with questions := s.questions ++ [cand], current_question := none }
  | none =>
    { s with errors := s.errors ++ ["No valid question to add"] }

/-- Decision of the conditional edge after the validate node. -/
inductive ContinueDecision where
  | stop
  | generate
deriving Repr, DecidableEq

/-- The continuation predicate `should_continue` (source lines 278-291):
stop once enough questions are accepted, stop when the error list is
non-empty with more than five entries, otherwise loop back to generate. -/
def should_continue (s : WorkflowState) : ContinueDecision :=
  if s.num_questions ≤ s.questions.length then .stop
  else if !s.errors.isEmpty && 5 < s.errors.length then .stop
  else .generate

/-- One cycle of the graph: the unconditional edge from generate to
validate. -/
def stepCycle (resp : Except String String) (s : WorkflowState) :
    WorkflowState :=
  validate_and_add_question (generate_single_question resp s)

/-- The compiled graph run with explicit fuel: starting at the generate
entry point, each cycle consumes the next client response, then the
conditional edge either stops or loops. Returns whether the run stopped
within the given number of cycles, together with the state reached. -/
def runLoop (client : Nat → Except String String) :
    Nat → Nat → WorkflowState → Bool × WorkflowState
  | 0, _, s => (false, s)
  | fuel + 1, i, s =>
    let s1 := stepCycle (client i) s
    match should_continue s1 with
    | .stop => (true, s1)
    | .generate => runLoop client fuel (i + 1) s1

/-- The initial state built by `generate_test` (source lines 330-337). -/
def initState (technology difficulty : String) (n : Nat) : WorkflowState :=
  { technology := technology, difficulty := difficulty, questions := [],
    errors := [], num_questions := n, current_question := none }

/-- The result dictionary returned by `generate_test` (source lines
348-354). -/
structure GenerationResult where
  questions : List Question
  errors : List String
  technology : String
  difficulty : String
  total_questions : Nat
deriving Repr

/-- The run entry point `generate_test`: build the initial state, run the
graph, and package the reached state. `none` means the graph had not
terminated within the given number of cycles. -/
def generate_test (client : Nat → Except String String)
    (technology difficulty : String) (n : Nat) (fuel : Nat) :
    Option GenerationResult :=
  match runLoop client fuel 0 (initState technology difficulty n) with
  | (true, s) =>
    some { questions := s.questions, errors := s.errors,
           technology := technology, difficulty := difficulty,
           total_questions := s.questions.length }
  | (false, _) => none

/-! Concrete stub-client replies and the values the workflow computes from
them, used below as inputs of counterexamples and witnesses. -/

/-- A well-formed completion: valid JSON of the demanded shape, question
text Q?, explanation of exactly 10 characters. -/
def goodText : String :=
  "\x7b\"question\": \"Q?\", \"options\": \x7b\"a\": \"1\", \"b\": \"2\", \"c\": \"3\", \"d\": \"4\"\x7d, \"correct_answer\": \"a\", \"explanation\": \"0123456789\"\x7d"

/-- A second well-formed completion with a distinct question text R?. -/
def goodTextB : String :=
  "\x7b\"question\": \"R?\", \"options\": \x7b\"a\": \"1\", \"b\": \"2\", \"c\": \"3\", \"d\": \"4\"\x7d, \"correct_answer\": \"b\", \"explanation\": \"0123456789\"\x7d"

/-- A well-formed completion whose question text is the one of `goodText`
with a leading space inside the JSON string: the same text ignoring
surrounding whitespace. -/
def wsVariant : String :=
  "\x7b\"question\": \" Q?\", \"options\": \x7b\"a\": \"1\", \"b\": \"2\", \"c\": \"3\", \"d\": \"4\"\x7d, \"correct_answer\": \"a\", \"explanation\": \"0123456789\"\x7d"

/-- A completion with an opening brace but no closing brace and an options
value that is not JSON: tiers 2 and 3 do not apply, the line-by-line
fallback recovers all four fields and fabricates empty option text. -/
def badOptsText : String :=
  "\x7b\"question\": \"Is it ok?\",\n\"options\": oops,\n\"correct_answer\": \"a\",\n\"explanation\": \"This is a long explanation\""

/-- The shared options dict of the three well-formed completions above. -/
def optsABCD : List (String × Json) :=
  [("a", .str "1"), ("b", .str "2"), ("c", .str "3"), ("d", .str "4")]

/-- The candidate the generate step produces from `goodText`. -/
def qGood : Question :=
  { question := "Q?", options := optsABCD, answer_key := "a",
    explanation := "0123456789" }

/-- The candidate the generate step produces from `goodTextB`. -/
def qGoodB : Question :=
  { question := "R?", options := optsABCD, answer_key := "b",
    explanation := "0123456789" }

/-- The candidate the generate step produces from `wsVariant`. -/
def qGoodWs : Question :=
  { question := " Q?", options := optsABCD, answer_key := "a",
    explanation := "0123456789" }

/-- The candidate the line-by-line fallback assembles from `badOptsText`:
all four option texts are fabricated empty strings. -/
def qEmptyOpts : Question :=
  { question := "Is it ok?",
    options := [("a", .str ""), ("b", .str ""), ("c", .str ""),
      ("d", .str "")],
    answer_key := "a", explanation := "This is a long explanation" }

/-- A stub client returning unparsable garbage on every call. -/
def garbageClient : Nat → Except String String := fun _ => Except.ok "x"

/-- The error description the generate step appends for the garbage
reply x: the final ValueError of the parser, wrapped by the
unexpected-error handler. -/
def garbageParseMsg : String :=
  "Unexpected error during JSON extraction: Failed to parse LLM response after all attempts. Raw response: x.... Raw response: x"

/-- The result of a garbage-only run with target 3: no questions, six
errors, three parse failures interleaved with three fixed validate-step
entries. -/
def rGarbage : GenerationResult :=
  { questions := [],
    errors := [garbageParseMsg, "No valid question to add",
      garbageParseMsg, "No valid question to add",
      garbageParseMsg, "No valid question to add"],
    technology := "Python", difficulty := "Easy", total_questions := 0 }

/-! General lemmas about the step functions and the loop. -/

/-- Unfolding of one cycle of the run loop. -/
theorem runLoop_succ (client : Nat → Except String String) (fuel i : Nat)
    (s : WorkflowState) :
    runLoop client (fuel + 1) i s =
      match should_continue (stepCycle (client i) s) with
      | .stop => (true, stepCycle (client i) s)
      | .generate => runLoop client fuel (i + 1) (stepCycle (client i) s) :=
  rfl

/-- The run loop keeps cycling while the continuation predicate says
generate. -/
theorem runLoop_succ_gen (client : Nat → Except String String) (fuel i : Nat)
    (s : WorkflowState)
    (h : should_continue (stepCycle (client i) s) = .generate) :
    runLoop client (fuel + 1) i s =
      runLoop client fuel (i + 1) (stepCycle (client i) s) := by
  rw [runLoop_succ, h]

/-- The run loop halts when the continuation predicate says stop. -/
theorem runLoop_succ_stop (client : Nat → Except String String) (fuel i : Nat)
    (s : WorkflowState)
    (h : should_continue (stepCycle (client i) s) = .stop) :
    runLoop client (fuel + 1) i s = (true, stepCycle (client i) s) := by
  rw [runLoop_succ, h]

/-- The continuation predicate loops back to generate below the target with
at most five errors. -/
theorem should_continue_gen (s : WorkflowState)
    (h1 : s.questions.length < s.num_questions)
    (h2 : s.errors.length ≤ 5) :
    should_continue s = .generate := by
  unfold should_continue
  have hb : ¬((!s.errors.isEmpty && decide (5 < s.errors.length)) = true) := by
    simp only [Bool.and_eq_true, decide_eq_true_eq, not_and]
    intro _
    omega
  rw [if_neg (by omega), if_neg hb]

/-- The continuation predicate stops once more than five errors have
accumulated. -/
theorem should_continue_stop_budget (s : WorkflowState)
    (h : 5 < s.errors.length) :
    should_continue s = .stop := by
  unfold should_continue
  split
  · rfl
  · rw [if_pos]
    cases herr : s.errors with
    | nil => rw [herr] at h; simp at h
    | cons a t =>
      rw [herr] at h
      simp only [List.isEmpty_cons, Bool.not_false, Bool.true_and,
        decide_eq_true_eq]
      simp only [List.length_cons] at h ⊢
      omega

/-- The continuation predicate stops once the target count is reached. -/
theorem should_continue_stop_count (s : WorkflowState)
    (h : s.num_questions ≤ s.questions.length) :
    should_continue s = .stop := by
  unfold should_continue
  rw [if_pos h]

/-- A cycle whose generate step fails appends exactly the generate-step
error and the fixed validate-step entry. -/
theorem stepCycle_err (resp : Except String String) (s : WorkflowState)
    (m : String) (h : genResult resp = Except.error m) :
    stepCycle resp s =
      { s with errors := s.errors ++ [m, "No valid question to add"],
               current_question := none } := by
  cases s
  simp [stepCycle, generate_single_question, h, validate_and_add_question]

/-- A cycle whose candidate duplicates an accepted question leaves exactly
the duplicate error (the generate step reset the list first). -/
theorem stepCycle_ok_dup (resp : Except String String) (s : WorkflowState)
    (q : Question) (h : genResult resp = Except.ok q)
    (hdup : (s.questions.any fun p =>
      pyLower p.question == pyLower q.question) = true) :
    stepCycle resp s =
      { s with errors := ["Duplicate question detected"],
               current_question := none } := by
  cases s
  simp only [stepCycle, generate_single_question, h,
    validate_and_add_question] at hdup ⊢
  simp [hdup]

/-- A cycle whose candidate is new appends it and leaves the error list
empty. -/
theorem stepCycle_ok_new (resp : Except String String) (s : WorkflowState)
    (q : Question) (h : genResult resp = Except.ok q)
    (hdup : (s.questions.any fun p =>
      pyLower p.question == pyLower q.question) = false) :
    stepCycle resp s =
      { s with questions := s.questions ++ [q], errors := [],
               current_question := none } := by
  cases s
  simp only [stepCycle, generate_single_question, h,
    validate_and_add_question] at hdup ⊢
  simp [hdup]

/-- One cycle grows the error list by at most two entries. -/
theorem stepCycle_errors_le (resp : Except String String)
    (s : WorkflowState) :
    (stepCycle resp s).errors.length ≤ s.errors.length + 2 := by
  cases hg : genResult resp with
  | ok q =>
    cases hdup : (s.questions.any fun p =>
        pyLower p.question == pyLower q.question) with
    | true => rw [stepCycle_ok_dup resp s q hg hdup]; simp
    | false => rw [stepCycle_ok_new resp s q hg hdup]; simp
  | error m => rw [stepCycle_err resp s m hg]; simp

/-- One cycle grows the accepted list by at most one question. -/
theorem stepCycle_questions_le (resp : Except String String)
    (s : WorkflowState) :
    (stepCycle resp s).questions.length ≤ s.questions.length + 1 := by
  cases hg : genResult resp with
  | ok q =>
    cases hdup : (s.questions.any fun p =>
        pyLower p.question == pyLower q.question) with
    | true => rw [stepCycle_ok_dup resp s q hg hdup]; simp
    | false => rw [stepCycle_ok_new resp s q hg hdup]; simp
  | error m => rw [stepCycle_err resp s m hg]; simp

/-- One cycle does not change the target count. -/
theorem stepCycle_num (resp : Except String String) (s : WorkflowState) :
    (stepCycle resp s).num_questions = s.num_questions := by
  cases hg : genResult resp with
  | ok q =>
    cases hdup : (s.questions.any fun p =>
        pyLower p.question == pyLower q.question) with
    | true => rw [stepCycle_ok_dup resp s q hg hdup]
    | false => rw [stepCycle_ok_new resp s q hg hdup]
  | error m => rw [stepCycle_err resp s m hg]

/-! Claim C1: whether the error list is append-only across the run. -/

/-- A client whose first reply is garbage and whose later replies are the
well-formed `goodText`. -/
def mixedClientC1 : Nat → Except String String :=
  fun i => if i = 0 then Except.ok "x" else Except.ok goodText

/-- C1 counterexample: with a garbage first reply and a well-formed second
reply and target 1, two errors are in the list after the first cycle, yet
the run terminates with an empty error list: the generate step removed
them on the first successful parse-and-validation, so the failure budget
does not count all errors accumulated across the run. -/
theorem claim1_counterexample :
    (runLoop mixedClientC1 1 0 (initState "Python" "Easy" 1)).2.errors =
      [garbageParseMsg, "No valid question to add"] ∧
    generate_test mixedClientC1 "Python" "Easy" 1 2 =
      some { questions := [qGood], errors := [], technology := "Python",
             difficulty := "Easy", total_questions := 1 } :=
  ⟨rfl, rfl⟩

/-- C1 amended: the error list is reset to empty by the generate step on
every successfully parsed and validated candidate, so after any cycle
whose candidate parses and validates, at most one error (a possible
duplicate entry) remains, regardless of how many errors had accumulated:
the failure budget counts only errors logged since the most recent
successfully parsed and validated candidate. -/
theorem claim1_amended (resp : Except String String) (s : WorkflowState)
    (q : Question) (h : genResult resp = Except.ok q) :
    (stepCycle resp s).errors.length ≤ 1 := by
  cases hdup : (s.questions.any fun p =>
      pyLower p.question == pyLower q.question) with
  | true => rw [stepCycle_ok_dup resp s q h hdup]; simp
  | false => rw [stepCycle_ok_new resp s q h hdup]; simp

/-- A state that has already accumulated five errors. -/
def sFiveErrors : WorkflowState :=
  { technology := "Python", difficulty := "Easy", questions := [],
    errors := ["e1", "e2", "e3", "e4", "e5"], num_questions := 3,
    current_question := none }

/-- C1 witness: a successful cycle drops a five-entry error list to at most
one entry. -/
theorem claim1_witness :
    (stepCycle (Except.ok goodText) sFiveErrors).errors.length ≤ 1 :=
  claim1_amended (Except.ok goodText) sFiveErrors qGood rfl

/-! Claim C5: tier ordering of the extraction policy. -/

/-- C5 counterexample: on the text x-brace-bad-brace-y, tier 2 finds the
brace substring, its strict decode fails, and the parser fails at once
with the escaping decode error rather than attempting the remaining
tiers and failing with the truncated-prefix ValueError. -/
theorem claim5_counterexample :
    braceMatch (stripFences "x \x7bbad\x7d y") = some "\x7bbad\x7d" ∧
    json_loads "\x7bbad\x7d" = none ∧
    extract_json "x \x7bbad\x7d y" = Except.error ExtractErr.jsonDecode ∧
    extract_json "x \x7bbad\x7d y" ≠
      Except.error (ExtractErr.valueErr
        ("Failed to parse LLM response after all attempts. Raw response: "
          ++ pyTake200 (stripFences "x \x7bbad\x7d y") ++ "...")) := by
  refine ⟨rfl, rfl, rfl, ?_⟩
  intro hcontra
  rw [show extract_json "x \x7bbad\x7d y" =
    Except.error ExtractErr.jsonDecode from rfl] at hcontra
  injection hcontra with h2
  cases h2

/-- C5 amended: the tier-2 decode of the brace substring is not guarded:
whenever the brace substring exists and its strict decode fails, the
parser raises that decode error immediately, and tiers 3, 4 and 5 are
attempted only when no brace substring exists at all. -/
theorem claim5_amended (t sub : String)
    (h1 : braceMatch (stripFences t) = some sub)
    (h2 : json_loads sub = none) :
    extract_json t = Except.error ExtractErr.jsonDecode := by
  simp only [extract_json, h1, h2]

/-- C5 witness: the amended behavior on the concrete failing brace
substring. -/
theorem claim5_witness :
    extract_json "x \x7bbad\x7d y" = Except.error ExtractErr.jsonDecode :=
  claim5_amended "x \x7bbad\x7d y" "\x7bbad\x7d" rfl rfl

/-! Claim C6: exact characterization of the validator. -/

/-- A stripped string ending with a question mark is non-empty. -/
theorem pyStrip_ne_of_endsWith (q : String)
    (h : pyEndsWith (pyStrip q) "?" = true) : pyStrip q ≠ "" := by
  intro he
  rw [he] at h
  exact absurd h (by decide)

/-- Characterization of the question rule. -/
theorem questionOk_iff (o : Option Json) :
    questionOk o = true ↔
      ∃ q, o = some (Json.str q) ∧ pyEndsWith (pyStrip q) "?" = true := by
  cases o with
  | none => simp [questionOk]
  | some v => cases v <;> simp [questionOk]

/-- Characterization of the options rule. -/
theorem optionsOk_iff (o : Option Json) :
    optionsOk o = true ↔
      ∃ kvs, o = some (Json.obj kvs) ∧ keySetABCD kvs = true := by
  cases o with
  | none => simp [optionsOk]
  | some v => cases v <;> simp [optionsOk]

/-- Characterization of the correct-answer rule. -/
theorem answerOk_iff (o : Option Json) :
    answerOk o = true ↔
      ∃ c, o = some (Json.str c) ∧
        (c = "a" ∨ c = "b" ∨ c = "c" ∨ c = "d") := by
  cases o with
  | none => simp [answerOk]
  | some v => cases v <;> simp [answerOk, or_assoc]

/-- Characterization of the explanation rule. -/
theorem explanationOk_iff (o : Option Json) :
    explanationOk o = true ↔
      ∃ e, o = some (Json.str e) ∧ 10 ≤ (pyStrip e).length := by
  cases o with
  | none => simp [explanationOk]
  | some v => cases v <;> simp [explanationOk]

/-- Characterization of the optional difficulty rule. -/
theorem difficultyOk_iff (o : Option Json) :
    difficultyOk o = true ↔
      ∀ v, o = some v →
        v = Json.str "Easy" ∨ v = Json.str "Medium" ∨ v = Json.str "Hard" := by
  cases o with
  | none => simp [difficultyOk]
  | some v => cases v <;> simp [difficultyOk, or_assoc]

/-- C6: the validator passes a candidate exactly when every rule holds:
question present as a string, non-empty after trimming and ending with a
question mark; options present as a mapping with key set exactly a, b, c,
d; correct answer one of a, b, c, d; explanation present with trimmed
length at least 10 (a 9-character explanation fails, a 10-character one
passes); and a difficulty field, when present, one of Easy, Medium, Hard.
Any single failing rule fails the whole validation, and the validator is
a pure function of the candidate. -/
theorem claim6_validator_rules (data : List (String × Json)) :
    _validate_question_data data = true ↔
      ((∃ q, pyGet data "question" = some (Json.str q) ∧
          pyStrip q ≠ "" ∧ pyEndsWith (pyStrip q) "?" = true) ∧
       (∃ kvs, pyGet data "options" = some (Json.obj kvs) ∧
          keySetABCD kvs = true) ∧
       (∃ c, pyGet data "correct_answer" = some (Json.str c) ∧
          (c = "a" ∨ c = "b" ∨ c = "c" ∨ c = "d")) ∧
       (∃ e, pyGet data "explanation" = some (Json.str e) ∧
          10 ≤ (pyStrip e).length) ∧
       (∀ v, pyGet data "difficulty" = some v →
          v = Json.str "Easy" ∨ v = Json.str "Medium" ∨
            v = Json.str "Hard")) := by
  unfold _validate_question_data
  simp only [Bool.and_eq_true, questionOk_iff, optionsOk_iff, answerOk_iff,
    explanationOk_iff, difficultyOk_iff, and_assoc]
  constructor
  · rintro ⟨_, ⟨q, hq, hq2⟩, ho, hc, he, hd⟩
    exact ⟨⟨q, hq, pyStrip_ne_of_endsWith q hq2, hq2⟩, ho, hc, he, hd⟩
  · rintro ⟨⟨q, hq, _, hq2⟩, ho, hc, he, hd⟩
    refine ⟨?_, ⟨q, hq, hq2⟩, ho, hc, he, hd⟩
    obtain ⟨kvs, hkvs, _⟩ := ho
    obtain ⟨c, hcc, _⟩ := hc
    obtain ⟨e, hee, _⟩ := he
    simp [fieldsPresent, hq, hkvs, hcc, hee]

/-! Claim C7: whether accepted questions always have non-empty option
text. -/

/-- A client always replying with the fallback-triggering text with a
non-JSON options value. -/
def badOptsClient : Nat → Except String String :=
  fun _ => Except.ok badOptsText

/-- C7 counterexample: the line-by-line fallback fabricates four empty
option texts for `badOptsText`, the validator passes the candidate (it
checks only the key set), and the run accepts it: an accepted question
with empty option text for every key. -/
theorem claim7_counterexample :
    generate_test badOptsClient "Python" "Easy" 1 1 =
      some { questions := [qEmptyOpts], errors := [], technology := "Python",
             difficulty := "Easy", total_questions := 1 } ∧
    qEmptyOpts.options = [("a", Json.str ""), ("b", Json.str ""),
      ("c", Json.str ""), ("d", Json.str "")] :=
  ⟨rfl, rfl⟩

/-- C7 amended: the validator never inspects option values, so a candidate
whose four option texts are all empty passes validation whenever the
remaining rules hold, and can therefore be accepted into the results. -/
theorem claim7_amended (q e : String)
    (hq : pyEndsWith (pyStrip q) "?" = true)
    (he : 10 ≤ (pyStrip e).length) :
    _validate_question_data
      [("question", Json.str q), ("options", emptyOptions),
       ("correct_answer", Json.str "a"), ("explanation", Json.str e)]
      = true := by
  simp [_validate_question_data, fieldsPresent, pyGet, questionOk, optionsOk,
    answerOk, explanationOk, difficultyOk, keySetABCD, emptyOptions, hq, he]

/-- C7 witness: a concrete empty-options candidate passing validation. -/
theorem claim7_witness :
    _validate_question_data
      [("question", Json.str "Q?"), ("options", emptyOptions),
       ("correct_answer", Json.str "a"),
       ("explanation", Json.str "0123456789")] = true :=
  claim7_amended "Q?" "0123456789" (by decide) (by decide)

/-! Claim C2: termination and full success under a deterministic stub. -/

/-- From any state holding exactly the question of `goodText` with target
2, a constant `goodText` client keeps producing duplicates whose error
entry the next successful generate step wipes, so the loop never stops. -/
theorem constGood_never_stops :
    ∀ fuel i (s : WorkflowState), s.questions = [qGood] →
      s.num_questions = 2 →
      (runLoop (fun _ => Except.ok goodText) fuel i s).1 = false := by
  intro fuel
  induction fuel with
  | zero => intro i s _ _; rfl
  | succ n ih =>
    intro i s hq hn
    have hdup : (s.questions.any fun p =>
        pyLower p.question == pyLower qGood.question) = true := by
      rw [hq]; simp
    have hstep := stepCycle_ok_dup (Except.ok goodText) s qGood rfl hdup
    have hcont : should_continue
        (stepCycle (Except.ok goodText) s) = .generate := by
      rw [hstep]
      apply should_continue_gen
      · simp [hq, hn]
      · simp
    rw [runLoop_succ_gen _ n i s hcont]
    refine ih (i + 1) _ ?_ ?_
    · rw [hstep]; exact hq
    · rw [hstep]; exact hn

/-- C2 counterexample: a deterministic stub returning the same well-formed
completion on every call (it parses and validates successfully every
time), target 2: the run never terminates at any cycle bound, hence
never returns two accepted questions with an empty error list. The
second candidate is always a duplicate, and its error entry is wiped by
the next successful generate step, so neither stop condition is ever
met. -/
theorem claim2_counterexample :
    genResult (Except.ok goodText) = Except.ok qGood ∧
    ¬ ∃ fuel r, generate_test (fun _ => Except.ok goodText)
      "Python" "Easy" 2 fuel = some r := by
  refine ⟨rfl, ?_⟩
  rintro ⟨fuel, r, hr⟩
  have hfalse : (runLoop (fun _ => Except.ok goodText) fuel 0
      (initState "Python" "Easy" 2)).1 = false := by
    cases fuel with
    | zero => rfl
    | succ n =>
      have h1 : stepCycle (Except.ok goodText) (initState "Python" "Easy" 2)
          = { technology := "Python", difficulty := "Easy",
              questions := [qGood], errors := [], num_questions := 2,
              current_question := none } := rfl
      have hcont : should_continue (stepCycle (Except.ok goodText)
          (initState "Python" "Easy" 2)) = .generate := by
        rw [h1]; rfl
      rw [runLoop_succ_gen _ n 0 _ hcont]
      refine constGood_never_stops n 1 _ ?_ ?_
      · rw [h1]
      · rw [h1]
  unfold generate_test at hr
  rcases hrl : runLoop (fun _ => Except.ok goodText) fuel 0
      (initState "Python" "Easy" 2) with ⟨done, s⟩
  rw [hrl] at hr hfalse
  cases done
  · exact Option.noConfusion hr
  · exact Bool.noConfusion hfalse

/-- C2 amended run lemma: when every reply parses and validates and the
question texts below the target are pairwise distinct after
lowercasing, each cycle accepts one question and the run stops exactly
at the target with no errors. -/
theorem claim2_run (t d : String) (n : Nat)
    (client : Nat → Except String String) (qs : Nat → Question)
    (hok : ∀ i, genResult (client i) = Except.ok (qs i))
    (hdist : ∀ i j, i < n → j < n → i ≠ j →
      pyLower (qs i).question ≠ pyLower (qs j).question) :
    ∀ k i cq, i + k = n → 0 < k →
      runLoop client k i
        { technology := t, difficulty := d,
          questions := (List.range i).map qs, errors := [],
          num_questions := n, current_question := cq } =
      (true, { technology := t, difficulty := d,
               questions := (List.range n).map qs, errors := [],
               num_questions := n, current_question := none }) := by
  intro k
  induction k with
  | zero => intro i cq hi hk; omega
  | succ m ih =>
    intro i cq hi hk
    have hdupF : (((List.range i).map qs).any fun p =>
        pyLower p.question == pyLower (qs i).question) = false := by
      rw [List.any_eq_false]
      intro p hp
      simp only [List.mem_map, List.mem_range] at hp
      obtain ⟨j, hj, rfl⟩ := hp
      intro hbeq
      have heq : pyLower (qs j).question = pyLower (qs i).question := by
        simpa using hbeq
      exact hdist j i (by omega) (by omega) (by omega) heq
    have hstep := stepCycle_ok_new (client i)
      { technology := t, difficulty := d,
        questions := (List.range i).map qs, errors := [],
        num_questions := n, current_question := cq }
      (qs i) (hok i) hdupF
    have hs1 : stepCycle (client i)
        { technology := t, difficulty := d,
          questions := (List.range i).map qs, errors := [],
          num_questions := n, current_question := cq } =
        { technology := t, difficulty := d,
          questions := (List.range (i+1)).map qs, errors := [],
          num_questions := n, current_question := none } := by
      rw [hstep]
      simp [List.range_succ]
    cases m with
    | zero =>
      have hn2 : i + 1 = n := by omega
      have hsc : should_continue (stepCycle (client i)
          { technology := t, difficulty := d,
            questions := (List.range i).map qs, errors := [],
            num_questions := n, current_question := cq }) = .stop := by
        rw [hs1]
        apply should_continue_stop_count
        simp [hn2]
      rw [runLoop_succ_stop client 0 i _ hsc, hs1, hn2]
    | succ m2 =>
      have hsc : should_continue (stepCycle (client i)
          { technology := t, difficulty := d,
            questions := (List.range i).map qs, errors := [],
            num_questions := n, current_question := cq }) = .generate := by
        rw [hs1]
        apply should_continue_gen
        · simp
          omega
        · simp
      rw [runLoop_succ_gen client (m2+1) i _ hsc, hs1]
      exact ih (i + 1) none (by omega) (by omega)

/-- C2 amended: for every technology, difficulty and positive target, a
deterministic stub whose replies all parse and validate successfully
and whose question texts (below the target) are pairwise distinct
case-insensitively makes the run terminate with exactly the target
number of accepted questions, in reply order, and an empty error list.
(Without the distinctness condition the statement fails: see the
counterexample.) -/
theorem claim2_amended (technology difficulty : String) (n : Nat)
    (client : Nat → Except String String) (qs : Nat → Question)
    (hn : 0 < n)
    (hok : ∀ i, genResult (client i) = Except.ok (qs i))
    (hdist : ∀ i j, i < n → j < n → i ≠ j →
      pyLower (qs i).question ≠ pyLower (qs j).question) :
    generate_test client technology difficulty n n =
      some { questions := (List.range n).map qs, errors := [],
             technology := technology, difficulty := difficulty,
             total_questions := n } := by
  have h := claim2_run technology difficulty n client qs hok hdist n 0 none
    (by omega) hn
  unfold generate_test
  have hinit : initState technology difficulty n =
      { technology := technology, difficulty := difficulty,
        questions := (List.range 0).map qs, errors := [],
        num_questions := n, current_question := none } := rfl
  rw [hinit, h]
  simp

/-- A deterministic stub producing two distinct well-formed questions. -/
def distinctClient : Nat → Except String String :=
  fun i => if i = 0 then Except.ok goodText else Except.ok goodTextB

/-- The candidates `distinctClient` produces. -/
def distinctQs : Nat → Question := fun i => if i = 0 then qGood else qGoodB

/-- C2 witness: the amended statement at the concrete two-question stub. -/
theorem claim2_witness :
    generate_test distinctClient "Python" "Easy" 2 2 =
      some { questions := (List.range 2).map distinctQs, errors := [],
             technology := "Python", difficulty := "Easy",
             total_questions := 2 } := by
  apply claim2_amended "Python" "Easy" 2 distinctClient distinctQs
    (by omega)
  · intro i
    by_cases h : i = 0
    · subst h; rfl
    · simp only [distinctClient, distinctQs, if_neg h]; rfl
  · intro i j hi hj hij
    interval_cases i <;> interval_cases j <;> simp_all [distinctQs] <;>
      decide

/-! Claim C3: the error count at failure-budget termination. -/

/-- A client producing a valid question, the same question again, then
garbage forever. -/
def mixedClientC3 : Nat → Except String String :=
  fun i => if i ≤ 1 then Except.ok goodText else Except.ok "x"

/-- C3 counterexample: accept, duplicate, then three garbage cycles: the
run terminates by the failure budget (one question against target two)
with seven errors, more than six. The duplicate cycle left a single
error after the wipe, and the end-of-cycle check then jumped from five
to seven. -/
theorem claim3_counterexample :
    (generate_test mixedClientC3 "Python" "Easy" 2 5).map
      (fun r => (r.total_questions, r.errors.length)) = some (1, 7) := rfl

/-- C3 amended: at any termination, in particular via the failure budget,
the error list has at most seven entries: the budget check runs only
after the validate step, each cycle appends at most two errors, and a
continued cycle starts from at most five — so termination can occur
with six or with seven errors, not always as soon as the sixth is
appended. -/
theorem claim3_amended (client : Nat → Except String String)
    (t d : String) (n fuel : Nat) (r : GenerationResult)
    (h : generate_test client t d n fuel = some r) :
    r.errors.length ≤ 7 := by
  have key : ∀ fuel2 i (s : WorkflowState), s.errors.length ≤ 5 →
      (runLoop client fuel2 i s).1 = true →
      (runLoop client fuel2 i s).2.errors.length ≤ 7 := by
    intro fuel2
    induction fuel2 with
    | zero => intro i s _ hT; exact absurd hT (by simp [runLoop])
    | succ m ih =>
      intro i s hs hT
      cases hsc : should_continue (stepCycle (client i) s) with
      | stop =>
        rw [runLoop_succ_stop client m i s hsc]
        have h2 := stepCycle_errors_le (client i) s
        show (stepCycle (client i) s).errors.length ≤ 7
        omega
      | generate =>
        rw [runLoop_succ_gen client m i s hsc] at hT ⊢
        have hle : (stepCycle (client i) s).errors.length ≤ 5 := by
          by_contra hgt
          push_neg at hgt
          have hstop := should_continue_stop_budget
            (stepCycle (client i) s) hgt
          rw [hstop] at hsc
          cases hsc
        exact ih (i+1) _ hle hT
  unfold generate_test at h
  rcases hrl : runLoop client fuel 0 (initState t d n) with ⟨done, s⟩
  rw [hrl] at h
  cases done with
  | false => exact Option.noConfusion h
  | true =>
    have h1 : (runLoop client fuel 0 (initState t d n)).1 = true := by
      rw [hrl]
    have h2 := key fuel 0 (initState t d n) (by simp [initState]) h1
    rw [hrl] at h2
    obtain rfl := (Option.some.inj h).symm
    exact h2

/-- C3 witness: the amended bound applied to the garbage-only run. -/
theorem claim3_witness : rGarbage.errors.length ≤ 7 :=
  claim3_amended garbageClient "Python" "Easy" 3 3 rGarbage rfl

/-! Claim C4: composition of the error list of a garbage-only run. -/

/-- C4 counterexample: a garbage-only run does terminate with no questions
and exactly six errors, but the list holds three parse-failure entries
interleaved with three fixed validate-step entries — not five
ParseError entries before the budget trips. -/
theorem claim4_counterexample :
    generate_test garbageClient "Python" "Easy" 3 3 = some rGarbage ∧
    rGarbage.errors.length = 6 ∧ rGarbage.total_questions = 0 ∧
    rGarbage.errors.count "No valid question to add" = 3 ∧
    rGarbage.errors.count garbageParseMsg = 3 :=
  ⟨rfl, rfl, rfl, rfl, rfl⟩

/-- C4 amended: when every reply fails to produce a candidate, the run
terminates after exactly three cycles with no questions and exactly six
errors: the three generate-step failure messages interleaved with three
fixed validate-step entries. -/
theorem claim4_amended (client : Nat → Except String String) (t d : String)
    (n : Nat) (msgs : Nat → String) (hn : 1 ≤ n)
    (hfail : ∀ i, genResult (client i) = Except.error (msgs i)) :
    generate_test client t d n 3 =
      some { questions := [],
             errors := [msgs 0, "No valid question to add",
               msgs 1, "No valid question to add",
               msgs 2, "No valid question to add"],
             technology := t, difficulty := d, total_questions := 0 } := by
  have e0 : stepCycle (client 0) (initState t d n) =
      { technology := t, difficulty := d, questions := [],
        errors := [msgs 0, "No valid question to add"],
        num_questions := n, current_question := none } := by
    rw [stepCycle_err (client 0) (initState t d n) (msgs 0) (hfail 0)]
    rfl
  have e1 : stepCycle (client 1)
      { technology := t, difficulty := d, questions := [],
        errors := [msgs 0, "No valid question to add"],
        num_questions := n, current_question := none } =
      { technology := t, difficulty := d, questions := [],
        errors := [msgs 0, "No valid question to add",
          msgs 1, "No valid question to add"],
        num_questions := n, current_question := none } := by
    rw [stepCycle_err _ _ (msgs 1) (hfail 1)]
    rfl
  have e2 : stepCycle (client 2)
      { technology := t, difficulty := d, questions := [],
        errors := [msgs 0, "No valid question to add",
          msgs 1, "No valid question to add"],
        num_questions := n, current_question := none } =
      { technology := t, difficulty := d, questions := [],
        errors := [msgs 0, "No valid question to add",
          msgs 1, "No valid question to add",
          msgs 2, "No valid question to add"],
        num_questions := n, current_question := none } := by
    rw [stepCycle_err _ _ (msgs 2) (hfail 2)]
    rfl
  have hc0 : should_continue
      ({ technology := t, difficulty := d, questions := [],
         errors := [msgs 0, "No valid question to add"],
         num_questions := n, current_question := none } : WorkflowState)
      = .generate := by
    apply should_continue_gen
    · simp; omega
    · simp
  have hc1 : should_continue
      ({ technology := t, difficulty := d, questions := [],
         errors := [msgs 0, "No valid question to add",
           msgs 1, "No valid question to add"],
         num_questions := n, current_question := none } : WorkflowState)
      = .generate := by
    apply should_continue_gen
    · simp; omega
    · simp
  have hc2 : should_continue
      ({ technology := t, difficulty := d, questions := [],
         errors := [msgs 0, "No valid question to add",
           msgs 1, "No valid question to add",
           msgs 2, "No valid question to add"],
         num_questions := n, current_question := none } : WorkflowState)
      = .stop := by
    apply should_continue_stop_budget
    simp
  unfold generate_test
  rw [runLoop_succ_gen client 2 0 _ (by rw [e0]; exact hc0), e0,
    runLoop_succ_gen client 1 1 _ (by rw [e1]; exact hc1), e1,
    runLoop_succ_stop client 0 2 _ (by rw [e2]; exact hc2), e2]
  rfl

/-- C4 witness: the amended statement at the concrete garbage client. -/
theorem claim4_witness :
    generate_test garbageClient "Python" "Easy" 3 3 =
      some { questions := [],
             errors := [garbageParseMsg, "No valid question to add",
               garbageParseMsg, "No valid question to add",
               garbageParseMsg, "No valid question to add"],
             technology := "Python", difficulty := "Easy",
             total_questions := 0 } :=
  claim4_amended garbageClient "Python" "Easy" 3 (fun _ => garbageParseMsg)
    (by omega) (fun _ => rfl)

/-! Claim C8: duplicate suppression. -/

/-- A client whose second and later replies carry the question text of the
first with a leading space. -/
def wsClient : Nat → Except String String :=
  fun i => if i = 0 then Except.ok goodText else Except.ok wsVariant

/-- C8 counterexample: replies whose question texts are equal ignoring case
and surrounding whitespace (Q? and space-Q?) are both accepted: the
duplicate check lowercases but does not strip, so the accepted list
exceeds length one for that text and the run terminates by count, not
by the failure budget. -/
theorem claim8_counterexample :
    generate_test wsClient "Python" "Easy" 2 2 =
      some { questions := [qGood, qGoodWs], errors := [],
             technology := "Python", difficulty := "Easy",
             total_questions := 2 } ∧
    pyLower (pyStrip qGood.question) = pyLower (pyStrip qGoodWs.question) :=
  ⟨rfl, rfl⟩

/-- One cycle preserves pairwise distinctness of lowercased accepted
question texts: the only append is guarded by the duplicate check. -/
theorem stepCycle_pairwise (resp : Except String String) (s : WorkflowState)
    (h : s.questions.Pairwise fun a b =>
      pyLower a.question ≠ pyLower b.question) :
    (stepCycle resp s).questions.Pairwise fun a b =>
      pyLower a.question ≠ pyLower b.question := by
  cases hg : genResult resp with
  | error m => rw [stepCycle_err resp s m hg]; exact h
  | ok q =>
    cases hdup : (s.questions.any fun p =>
        pyLower p.question == pyLower q.question) with
    | true => rw [stepCycle_ok_dup resp s q hg hdup]; exact h
    | false =>
      rw [stepCycle_ok_new resp s q hg hdup]
      rw [List.pairwise_append]
      refine ⟨h, by simp, ?_⟩
      intro a ha b hb
      simp only [List.mem_singleton] at hb
      subst hb
      intro heq
      have hany : (s.questions.any fun p =>
          pyLower p.question == pyLower b.question) = true :=
        List.any_eq_true.mpr ⟨a, ha, by simp [heq]⟩
      rw [hany] at hdup
      cases hdup

/-- The loop preserves pairwise distinctness of lowercased accepted
question texts. -/
theorem runLoop_pairwise (client : Nat → Except String String) :
    ∀ fuel i (s : WorkflowState),
      s.questions.Pairwise (fun a b =>
        pyLower a.question ≠ pyLower b.question) →
      ((runLoop client fuel i s).2).questions.Pairwise fun a b =>
        pyLower a.question ≠ pyLower b.question := by
  intro fuel
  induction fuel with
  | zero => intro i s h; exact h
  | succ m ih =>
    intro i s h
    cases hsc : should_continue (stepCycle (client i) s) with
    | stop =>
      rw [runLoop_succ_stop client m i s hsc]
      exact stepCycle_pairwise (client i) s h
    | generate =>
      rw [runLoop_succ_gen client m i s hsc]
      exact ih (i+1) _ (stepCycle_pairwise (client i) s h)

/-- With every reply producing a candidate of one fixed lowercased question
text and at least two questions demanded, any state already holding that
one question cycles forever: the duplicate is rejected, but its error
entry is wiped by the next successful generate step. -/
theorem sameText_never_stops (client : Nat → Except String String)
    (cand : Nat → Question)
    (hok : ∀ i, genResult (client i) = Except.ok (cand i))
    (hsame : ∀ i, pyLower (cand i).question = pyLower (cand 0).question)
    (n : Nat) (hn : 2 ≤ n) :
    ∀ fuel i (s : WorkflowState), s.questions = [cand 0] →
      s.num_questions = n →
      (runLoop client fuel i s).1 = false ∧
      (runLoop client fuel i s).2.questions = [cand 0] := by
  intro fuel
  induction fuel with
  | zero => intro i s h1 _; exact ⟨rfl, h1⟩
  | succ m ih =>
    intro i s h1 h2
    have hdup : (s.questions.any fun p =>
        pyLower p.question == pyLower (cand i).question) = true := by
      rw [h1]
      simp [hsame i]
    have hstep := stepCycle_ok_dup (client i) s (cand i) (hok i) hdup
    have hsc : should_continue (stepCycle (client i) s) = .generate := by
      rw [hstep]
      apply should_continue_gen
      · simp [h1, h2]
        omega
      · simp
    rw [runLoop_succ_gen client m i s hsc]
    refine ih (i+1) _ ?_ ?_
    · rw [hstep]; exact h1
    · rw [hstep]; exact h2

/-- C8 amended: first, no two accepted questions of any run result have
case-insensitively equal question text — exact text, whitespace not
ignored, since the duplicate check lowercases without stripping.
Second, for a client whose candidates all carry one fixed lowercased
question text, at most one question is ever accepted, and with a target
of at least two the run never terminates at all: each successful
generate step wipes the previous duplicate error, so the failure budget
is never exhausted and the run does not end via the failure-budget
path. -/
theorem claim8_amended :
    (∀ client t d n fuel r,
      generate_test client t d n fuel = some r →
      r.questions.Pairwise fun a b =>
        pyLower a.question ≠ pyLower b.question) ∧
    (∀ (client : Nat → Except String String) (cand : Nat → Question)
        (t d : String) (n : Nat),
      (∀ i, genResult (client i) = Except.ok (cand i)) →
      (∀ i, pyLower (cand i).question = pyLower (cand 0).question) →
      2 ≤ n →
      ∀ fuel, generate_test client t d n fuel = none ∧
        (runLoop client fuel 0 (initState t d n)).2.questions.length ≤ 1)
    := by
  constructor
  · intro client t d n fuel r hr
    unfold generate_test at hr
    rcases hrl : runLoop client fuel 0 (initState t d n) with ⟨done, s⟩
    rw [hrl] at hr
    cases done with
    | false => exact Option.noConfusion hr
    | true =>
      obtain rfl := (Option.some.inj hr).symm
      have h := runLoop_pairwise client fuel 0 (initState t d n)
        (by simp [initState])
      rw [hrl] at h
      exact h
  · intro client cand t d n hok hsame hn fuel
    cases fuel with
    | zero => exact ⟨rfl, by simp [runLoop, initState]⟩
    | succ m =>
      have hstep := stepCycle_ok_new (client 0) (initState t d n) (cand 0)
        (hok 0) (by rfl)
      have hs1 : stepCycle (client 0) (initState t d n) =
          { technology := t, difficulty := d, questions := [cand 0],
            errors := [], num_questions := n, current_question := none } := by
        rw [hstep]; rfl
      have hsc : should_continue (stepCycle (client 0) (initState t d n))
          = .generate := by
        rw [hs1]
        apply should_continue_gen
        · simp; omega
        · simp
      have htail := sameText_never_stops client cand hok hsame n hn m 1
        { technology := t, difficulty := d, questions := [cand 0],
          errors := [], num_questions := n, current_question := none }
        rfl rfl
      constructor
      · unfold generate_test
        rw [runLoop_succ_gen client m 0 _ hsc, hs1]
        rcases hrl : runLoop client m 1
            { technology := t, difficulty := d, questions := [cand 0],
              errors := [], num_questions := n,
              current_question := none } with ⟨done, s⟩
        rw [hrl] at htail
        cases done with
        | false => rfl
        | true => exact absurd htail.1 (by simp)
      · rw [runLoop_succ_gen client m 0 _ hsc, hs1]
        rw [htail.2]
        simp

/-- The full-success result of the two-distinct-questions stub. -/
def rDistinct : GenerationResult :=
  { questions := [qGood, qGoodB], errors := [], technology := "Python",
    difficulty := "Easy", total_questions := 2 }

/-- C8 witness: the no-duplicates invariant applied to a concrete
terminating run. -/
theorem claim8_witness :
    rDistinct.questions.Pairwise (fun a b =>
      pyLower a.question ≠ pyLower b.question) :=
  claim8_amended.1 distinctClient "Python" "Easy" 2 2 rDistinct rfl

/-! Claim C9: the accepted list is bounded by the target. -/

/-- C9: the accepted list never exceeds the target: for every client and
cycle bound with positive target, the state reached holds at most the
target number of questions; the generate step never touches the
accepted list; the validate step appends at most one question; and the
continuation predicate stops as soon as the target is reached. -/
theorem claim9_accepted_bounded :
    (∀ client t d n fuel, 1 ≤ n →
      ((runLoop client fuel 0 (initState t d n)).2).questions.length ≤ n) ∧
    (∀ resp s, (generate_single_question resp s).questions = s.questions) ∧
    (∀ s, (validate_and_add_question s).questions.length ≤
      s.questions.length + 1) ∧
    (∀ s, s.num_questions ≤ s.questions.length →
      should_continue s = ContinueDecision.stop) := by
  refine ⟨?_, ?_, ?_, ?_⟩
  · intro client t d n fuel hn
    have key : ∀ fuel2 i (s : WorkflowState),
        s.questions.length < s.num_questions →
        ((runLoop client fuel2 i s).2).questions.length ≤
          s.num_questions := by
      intro fuel2
      induction fuel2 with
      | zero => intro i s h; exact Nat.le_of_lt h
      | succ m ih =>
        intro i s h
        cases hsc : should_continue (stepCycle (client i) s) with
        | stop =>
          rw [runLoop_succ_stop client m i s hsc]
          have h1 := stepCycle_questions_le (client i) s
          show (stepCycle (client i) s).questions.length ≤ s.num_questions
          omega
        | generate =>
          rw [runLoop_succ_gen client m i s hsc]
          have h2 := stepCycle_num (client i) s
          have h3 : (stepCycle (client i) s).questions.length <
              (stepCycle (client i) s).num_questions := by
            by_contra hge
            push_neg at hge
            rw [should_continue_stop_count _ hge] at hsc
            cases hsc
          have h4 := ih (i+1) (stepCycle (client i) s) h3
          omega
    have h5 := key fuel 0 (initState t d n) (by simpa [initState] using hn)
    simpa [initState] using h5
  · intro resp s
    unfold generate_single_question
    cases genResult resp <;> rfl
  · intro s
    rcases s with ⟨t2, d2, qs2, es2, n2, cq2⟩
    cases cq2 with
    | none => simp [validate_and_add_question]
    | some cand =>
      simp only [validate_and_add_question]
      split <;> simp
  · intro s h
    exact should_continue_stop_count s h

/-- C9 witness: the bound applied to a concrete run. -/
theorem claim9_witness :
    ((runLoop garbageClient 3 0
      (initState "Python" "Easy" 3)).2).questions.length ≤ 3 :=
  claim9_accepted_bounded.1 garbageClient "Python" "Easy" 3 3 (by omega)

/-! Claim C10: two errors per fully failed cycle, budget gone in three. -/

/-- C10: a fully failed cycle — client failure, parse failure or validation
failure, all surfacing as a generate-step error — appends exactly two
entries: the generate-step message and the fixed validate-step entry;
and three consecutive such cycles append six entries, after which the
continuation predicate necessarily stops: the failure budget is
exhausted by three failed LLM invocations. -/
theorem claim10_failed_cycle_errors :
    (∀ resp s m, genResult resp = Except.error m →
      stepCycle resp s =
        { s with errors := s.errors ++ [m, "No valid question to add"],
                 current_question := none }) ∧
    (∀ (client : Nat → Except String String) (s : WorkflowState) (i : Nat)
        (m0 m1 m2 : String),
      genResult (client i) = Except.error m0 →
      genResult (client (i+1)) = Except.error m1 →
      genResult (client (i+2)) = Except.error m2 →
      (stepCycle (client (i+2)) (stepCycle (client (i+1))
          (stepCycle (client i) s))).errors =
        s.errors ++ [m0, "No valid question to add", m1,
          "No valid question to add", m2, "No valid question to add"] ∧
      should_continue (stepCycle (client (i+2)) (stepCycle (client (i+1))
          (stepCycle (client i) s))) = ContinueDecision.stop) := by
  constructor
  · exact fun resp s m h => stepCycle_err resp s m h
  · intro client s i m0 m1 m2 h0 h1 h2
    rw [stepCycle_err _ _ _ h0, stepCycle_err _ _ _ h1,
      stepCycle_err _ _ _ h2]
    constructor
    · simp
    · apply should_continue_stop_budget
      simp

/-- C10 witness: one failed cycle on a concrete state appends exactly the
two entries. -/
theorem claim10_witness :
    stepCycle (Except.ok "x") sFiveErrors =
      { sFiveErrors with
          errors := sFiveErrors.errors ++
            [garbageParseMsg, "No valid question to add"],
          current_question := none } :=
  claim10_failed_cycle_errors.1 (Except.ok "x") sFiveErrors
    garbageParseMsg rfl

end QuizWorkflow
